import Mathlib

/-! # A model of the icepyx data-access client

Shallow embedding of the operations documented for the icepyx library:
query construction and subsetting parameters, granule ordering and
download, cloud (s3) data access, and the Read object that loads
ICESat-2 granule files into a merged dataset.  The Python
implementation itself is not part of the reviewed material (only the
documentation pages and example notebooks are), so each operation is
modelled from the specification text and the notebook that documents
it, and the theorems are settled against these models.
-/

namespace Icepyx

/-- A geographic bounding box with integer lon/lat corners. -/
structure BBox where
  lonMin : Int
  latMin : Int
  lonMax : Int
  latMax : Int
deriving DecidableEq

/-- The execution environment from which cloud data access is attempted. -/
inductive ExecEnv where
  | awsUsWest2
  | awsOtherRegion
  | nonAws
deriving DecidableEq

/-- Errors surfaced when opening a cloud-hosted granule. -/
inductive S3AccessError where
  | permissionDenied
deriving DecidableEq

/-- A handle to an opened cloud-hosted granule file. -/
structure S3File where
  url : String
deriving DecidableEq

/-- Modelled from the spec: opening an s3 url of a cloud-hosted granule
(the `s3.open` call, whose implementation is not in the reviewed
material) requires execution within an AWS us-west2 instance; from any
other environment it fails with a permission error. -/
def s3Open (env : ExecEnv) (url : String) : Except S3AccessError S3File :=
  match env with
  | ExecEnv.awsUsWest2 => Except.ok ⟨url⟩
  | ExecEnv.awsOtherRegion => Except.error S3AccessError.permissionDenied
  | ExecEnv.nonAws => Except.error S3AccessError.permissionDenied

/-- C2: opening an s3 url for a cloud-hosted granule succeeds exactly
when executed within an AWS us-west2 instance; from any other
environment the operation fails with a permission error. -/
theorem s3Open_requires_us_west2 (env : ExecEnv) (url : String) :
    (s3Open env url = Except.ok ⟨url⟩ ↔ env = ExecEnv.awsUsWest2) ∧
    (env ≠ ExecEnv.awsUsWest2 →
      s3Open env url = Except.error S3AccessError.permissionDenied) := by
  cases env <;> simp [s3Open]

/-- Concrete instantiation of the s3 access theorem: from a non-AWS
environment, opening a granule url fails with a permission error. -/
theorem s3Open_requires_us_west2_witness :
    ExecEnv.nonAws ≠ ExecEnv.awsUsWest2 ∧
    s3Open ExecEnv.nonAws ("s3://nsidc-cumulus-prod-protected/g.h5") =
      Except.error S3AccessError.permissionDenied :=
  ⟨by decide,
    (s3Open_requires_us_west2 ExecEnv.nonAws
      ("s3://nsidc-cumulus-prod-protected/g.h5")).2 (by decide)⟩

/-- Whether two bounding boxes overlap. -/
def bboxOverlaps (a b : BBox) : Bool :=
  decide (a.lonMin ≤ b.lonMax) && decide (b.lonMin ≤ a.lonMax) &&
  decide (a.latMin ≤ b.latMax) && decide (b.latMin ≤ a.latMax)

/-- Whether a data point lies inside a bounding box. -/
def pointInBBox (b : BBox) (p : Int × Int) : Bool :=
  decide (b.lonMin ≤ p.1) && decide (p.1 ≤ b.lonMax) &&
  decide (b.latMin ≤ p.2) && decide (p.2 ≤ b.latMax)

/-- A granule as seen by the search and by the subsetter: the summary
metadata bounding box used for the granule-level search, and the data
points actually stored in the granule. -/
structure GranuleMeta where
  summaryBBox : BBox
  dataPoints : List (Int × Int)
deriving DecidableEq

/-- Modelled from the spec: the granule-level search matches a granule
against the search area by its summary metadata bounding box only. -/
def granuleSearchHit (area : BBox) (g : GranuleMeta) : Bool :=
  bboxOverlaps area g.summaryBBox

/-- Modelled from the spec: the server-side subsetting step extracts
from a granule the data points inside the requested bounds; when none
is in bounds it returns an empty result, not an error. -/
def subsetGranule (area : BBox) (g : GranuleMeta) :
    Except String (List (Int × Int)) :=
  Except.ok (g.dataPoints.filter (fun p => pointInBBox area p))

/-- C3: there is an order in which a granule whose summary metadata
overlaps the search area contains no data inside the requested bounds,
and the subsetting step for that granule returns an empty result
rather than an error. -/
theorem subset_empty_result_mode :
    ∃ (area : BBox) (g : GranuleMeta),
      granuleSearchHit area g = true ∧
      g.dataPoints ≠ [] ∧
      subsetGranule area g = Except.ok [] :=
  ⟨⟨0, 0, 10, 10⟩, ⟨⟨5, 5, 20, 20⟩, [(15, 15)]⟩, rfl, by decide, rfl⟩

/-- Seconds for which one s3 login token is valid. -/
def tokenPeriodSeconds : Nat := 3600

/-- An s3 access credential, distinguished by the hourly renewal epoch
in which it was generated. -/
structure S3Credentials where
  tokenEpoch : Nat
deriving DecidableEq

/-- Modelled from the spec: the s3 credential held by the library `t`
seconds after login; the library renews it each time an hour elapses,
with no user action appearing as an input. -/
def s3LoginCredentialsAt (t : Nat) : S3Credentials :=
  ⟨t / tokenPeriodSeconds⟩

/-- Modelled from the spec: a token is valid during the one-hour
renewal window in which it was generated. -/
def tokenValidAt (c : S3Credentials) (t : Nat) : Bool :=
  decide (c.tokenEpoch * tokenPeriodSeconds ≤ t) &&
  decide (t < (c.tokenEpoch + 1) * tokenPeriodSeconds)

/-- C5: the credential held at any time is valid at that time (renewal
needs no user action); a token is valid exactly during the one-hour
window in which it was generated; and the credential value changes
after an hour elapses, so values observed over several hours differ. -/
theorem s3_token_hourly_renewal (t u : Nat) :
    tokenValidAt (s3LoginCredentialsAt t) t = true ∧
    (tokenValidAt (s3LoginCredentialsAt t) u = true ↔
      u / tokenPeriodSeconds = t / tokenPeriodSeconds) ∧
    s3LoginCredentialsAt (t + tokenPeriodSeconds) ≠ s3LoginCredentialsAt t := by
  refine ⟨?_, ?_, ?_⟩
  · simp only [tokenValidAt, s3LoginCredentialsAt, tokenPeriodSeconds,
      Bool.and_eq_true, decide_eq_true_eq]
    omega
  · simp only [tokenValidAt, s3LoginCredentialsAt, tokenPeriodSeconds,
      Bool.and_eq_true, decide_eq_true_eq]
    omega
  · simp only [s3LoginCredentialsAt, tokenPeriodSeconds, ne_eq,
      S3Credentials.mk.injEq]
    omega

/-- Concrete instantiation of the token renewal theorem: the credential
observed one hour after login differs from the one observed at login. -/
theorem s3_token_hourly_renewal_witness :
    s3LoginCredentialsAt (0 + tokenPeriodSeconds) ≠ s3LoginCredentialsAt 0 :=
  (s3_token_hourly_renewal 0 0).2.2

/-- One formatted data variable: its path and its data values. -/
abbrev DataVar := String × List Int

/-- A per-granule dataset: the formatted requested variables. -/
abbrev DataSet := List DataVar

/-- An input granule file: its file name and its stored variables. -/
structure Granule where
  fileName : String
  content : List (String × List Int)
deriving DecidableEq

/-- The xarray library surface that `Read.load` delegates to: reading
one variable of one granule file, and merging per-granule datasets.
Both are parameters of the model, because neither is implemented by
the library itself. -/
structure XArrayLib where
  openVar : Granule → String → List Int
  merge : List DataSet → Except String DataSet

/-- Modelled from the spec: icepyx formats each requested variable that
xarray read in; the reviewed material fixes no format beyond keeping a
variable path together with its data. -/
def formatVar (v : String) (data : List Int) : DataVar := (v, data)

/-- Modelled from the spec: the dataset built for one granule by
reading each requested variable of the granule via xarray and
formatting it. -/
def buildGranuleDataset (xr : XArrayLib) (wanted : List String)
    (g : Granule) : DataSet :=
  wanted.map (fun v => formatVar v (xr.openVar g v))

/-- A Read object: the located granule files and the wanted variables. -/
structure Read where
  filelist : List Granule
  wanted : List String
deriving DecidableEq

/-- Result of `Read.load`: a single merged dataset, or the per-granule
datasets with a warning when the xarray merge failed, or a raised
exception (never produced by `Read.load`). -/
inductive LoadResult where
  | merged (ds : DataSet)
  | unmerged (dss : List DataSet) (warning : String)
  | raised (e : String)
deriving DecidableEq

/-- Warning prefix attached when the xarray merge fails. -/
def mergeWarningPrefix : String := "xarray merge failed: "

/-- Modelled from the spec: `Read.load` builds one xarray dataset per
input granule (reading each requested variable via xarray and
formatting it), then merges them with the xarray merge; when the merge
fails it does not raise but returns the per-granule datasets together
with a warning carrying the merge error message. -/
def Read.load (xr : XArrayLib) (r : Read) : LoadResult :=
  let dss := r.filelist.map (buildGranuleDataset xr r.wanted)
  match xr.merge dss with
  | Except.ok ds => LoadResult.merged ds
  | Except.error e => LoadResult.unmerged dss (mergeWarningPrefix ++ e)

/-- C1: a successful `Read.load` over a non-empty file list reads each
requested variable of each granule via the xarray reader, formats it,
and returns the single data object produced by merging the per-granule
datasets, where the merge applied is the xarray merge function itself
rather than anything internal. -/
theorem Read.load_merges_via_xarray (xr : XArrayLib) (r : Read) (ds : DataSet)
    (hne : r.filelist ≠ [])
    (hok : xr.merge (r.filelist.map (buildGranuleDataset xr r.wanted)) =
      Except.ok ds) :
    Read.load xr r = LoadResult.merged ds ∧
    ∀ g ∈ r.filelist,
      buildGranuleDataset xr r.wanted g =
        r.wanted.map (fun v => formatVar v (xr.openVar g v)) := by
  refine ⟨?_, fun g _ => rfl⟩
  simp only [Read.load, hok]

/-- A demo granule for the load witnesses. -/
def demoGranule : Granule := ⟨"ATL06_g1.h5", [("lat", [1, 2])]⟩

/-- A demo xarray surface whose merge concatenates the datasets. -/
def demoXr : XArrayLib :=
  ⟨fun g v => (g.content.lookup v).getD [],
   fun dss => Except.ok (dss.foldr (fun a b => a ++ b) [])⟩

/-- A demo xarray surface whose merge always fails. -/
def demoXrFail : XArrayLib :=
  ⟨fun g v => (g.content.lookup v).getD [],
   fun _ => Except.error ("cannot merge duplicate granule")⟩

/-- Concrete instantiation of the load theorem: loading one granule
with one wanted variable yields the merged dataset. -/
theorem Read.load_merges_via_xarray_witness :
    Read.load demoXr ⟨[demoGranule], ["lat"]⟩ =
      LoadResult.merged [("lat", [1, 2])] ∧
    ∀ g ∈ (⟨[demoGranule], ["lat"]⟩ : Read).filelist,
      buildGranuleDataset demoXr ["lat"] g =
        ["lat"].map (fun v => formatVar v (demoXr.openVar g v)) :=
  Read.load_merges_via_xarray demoXr ⟨[demoGranule], ["lat"]⟩
    [("lat", [1, 2])] (by decide) rfl

/-- C10: when the xarray merge of the per-granule datasets fails,
`Read.load` does not raise: it returns the list of per-granule
datasets together with a warning carrying the merge error message. -/
theorem Read.load_merge_failure_warns (xr : XArrayLib) (r : Read) (e : String)
    (herr : xr.merge (r.filelist.map (buildGranuleDataset xr r.wanted)) =
      Except.error e) :
    Read.load xr r =
      LoadResult.unmerged (r.filelist.map (buildGranuleDataset xr r.wanted))
        (mergeWarningPrefix ++ e) ∧
    ∀ msg, Read.load xr r ≠ LoadResult.raised msg := by
  have h : Read.load xr r =
      LoadResult.unmerged (r.filelist.map (buildGranuleDataset xr r.wanted))
        (mergeWarningPrefix ++ e) := by
    simp only [Read.load, herr]
  exact ⟨h, fun msg => by simp [h]⟩

/-- Concrete instantiation of the merge failure theorem: the same
granule supplied twice makes the merge fail, and load returns the two
per-granule datasets with the warning, raising nothing. -/
theorem Read.load_merge_failure_warns_witness :
    Read.load demoXrFail ⟨[demoGranule, demoGranule], ["lat"]⟩ =
      LoadResult.unmerged [[("lat", [1, 2])], [("lat", [1, 2])]]
        (mergeWarningPrefix ++ "cannot merge duplicate granule") ∧
    ∀ msg, Read.load demoXrFail ⟨[demoGranule, demoGranule], ["lat"]⟩ ≠
      LoadResult.raised msg :=
  Read.load_merge_failure_warns demoXrFail
    ⟨[demoGranule, demoGranule], ["lat"]⟩ ("cannot merge duplicate granule") rfl

mutual

/-- An entry of the local filesystem: a file or a directory. -/
inductive FSEntry where
  | file (name : String)
  | dir (name : String) (entries : FSList)

/-- A listing of filesystem entries (the contents of a directory). -/
inductive FSList where
  | nil
  | cons (head : FSEntry) (tail : FSList)

end

mutual

/-- Modelled from the spec: the Read object locates its files by
scanning the supplied directory and all of its subdirectories, keeping
exactly the file names accepted by the filename-pattern matcher `m`. -/
def scanEntry (m : String → Bool) : FSEntry → List String
  | FSEntry.file n => if m n then [n] else []
  | FSEntry.dir _ es => scanList m es

/-- Scan of a directory listing (see `scanEntry`). -/
def scanList (m : String → Bool) : FSList → List String
  | FSList.nil => []
  | FSList.cons e es => scanEntry m e ++ scanList m es

end

mutual

/-- All file names under a filesystem entry, with no pattern filter. -/
def filesOfEntry : FSEntry → List String
  | FSEntry.file n => [n]
  | FSEntry.dir _ es => filesOfList es

/-- All file names under a directory listing. -/
def filesOfList : FSList → List String
  | FSList.nil => []
  | FSList.cons e es => filesOfEntry e ++ filesOfList es

end

/-- The default NSIDC filename pattern, assumed when none is supplied. -/
def defaultPattern : String :=
  "ATL\x7bproduct:2\x7d_\x7bdatetime:%Y%m%d%H%M%S\x7d_\x7brgt:4\x7d\x7bcycle:2\x7d\x7borbitsegment:2\x7d_\x7bversion:3\x7d_\x7brevision:2\x7d.h5"

/-- Modelled from the spec: constructing a Read object with a directory
data source scans the directory tree for the files matching the
filename pattern, the default NSIDC pattern when none is supplied.
`matchNamed` is the pattern matcher itself (the implementation
delegates matching to the Intake/parse machinery, so the matcher is a
parameter of the model). -/
def readFilelist (matchNamed : String → String → Bool)
    (dataSource : FSEntry) (filenamePattern : Option String) : List String :=
  scanEntry (matchNamed (filenamePattern.getD defaultPattern)) dataSource

mutual

theorem mem_scanEntry (m : String → Bool) (n : String) :
    ∀ t : FSEntry, n ∈ scanEntry m t ↔ n ∈ filesOfEntry t ∧ m n = true
  | FSEntry.file n0 => by
      by_cases h : m n0 = true
      · simp only [scanEntry, filesOfEntry, h, if_true, List.mem_singleton,
          iff_self_and]
        exact fun he => he ▸ h
      · simp only [scanEntry, filesOfEntry, h, if_false, Bool.false_eq_true,
          List.not_mem_nil, false_iff, not_and, List.mem_singleton]
        intro he
        rw [he]
        simp [h]
  | FSEntry.dir d es => by
      simpa only [scanEntry, filesOfEntry] using mem_scanList m n es

theorem mem_scanList (m : String → Bool) (n : String) :
    ∀ l : FSList, n ∈ scanList m l ↔ n ∈ filesOfList l ∧ m n = true
  | FSList.nil => by simp [scanList, filesOfList]
  | FSList.cons e es => by
      simp only [scanList, filesOfList, List.mem_append,
        mem_scanEntry m n e, mem_scanList m n es]
      tauto

end

/-- C4: a Read object constructed over a directory data source locates
exactly the files anywhere under that directory (subdirectories
included) whose names match the supplied filename pattern, the default
NSIDC pattern when none is supplied; non-matching files are excluded. -/
theorem readFilelist_exactly_matching (matchNamed : String → String → Bool)
    (dataSource : FSEntry) (filenamePattern : Option String) (n : String) :
    n ∈ readFilelist matchNamed dataSource filenamePattern ↔
      n ∈ filesOfEntry dataSource ∧
      matchNamed (filenamePattern.getD defaultPattern) n = true :=
  mem_scanEntry (matchNamed (filenamePattern.getD defaultPattern)) n dataSource

/-- A demo directory tree: a root directory holding one matching file,
plus a subdirectory holding a matching and a non-matching file. -/
def demoTree : FSEntry :=
  FSEntry.dir ("data")
    (FSList.cons (FSEntry.file ("ATL06_a.h5"))
      (FSList.cons
        (FSEntry.dir ("sub")
          (FSList.cons (FSEntry.file ("ATL06_b.h5"))
            (FSList.cons (FSEntry.file ("notes.txt")) FSList.nil)))
        FSList.nil))

/-- A demo filename matcher accepting exactly the two .h5 names of the
demo tree. -/
def demoMatcher (pat name : String) : Bool :=
  decide (name = "ATL06_a.h5" ∨ name = "ATL06_b.h5") && decide (pat = pat)

/-- Concrete instantiation of the scan theorem: the matching file
inside the subdirectory is located because it is under the directory
and matches, and the non-matching file is excluded, by the two
directions of the theorem. -/
theorem readFilelist_exactly_matching_witness :
    "ATL06_b.h5" ∈ readFilelist demoMatcher demoTree none ∧
    "notes.txt" ∉ readFilelist demoMatcher demoTree none :=
  ⟨(readFilelist_exactly_matching demoMatcher demoTree none
      ("ATL06_b.h5")).mpr (by constructor <;> decide),
   fun hmem =>
    absurd ((readFilelist_exactly_matching demoMatcher demoTree none
      ("notes.txt")).mp hmem).2 (by decide)⟩

/-- Keyword arguments accepted by `subsetparams`, `order_granules` and
`download_granules` for the NSIDC subsetter. -/
structure SubsetKwargs where
  Coverage : Option String
  format : Option String
  projection : Option String
  projection_parameters : Option String
deriving DecidableEq

/-- The spatial and temporal bounds a query object is built from. -/
structure QueryBounds where
  bounding_box : String
  start_date : String
  end_date : String
deriving DecidableEq

/-- One key=value parameter of an HTTP request. -/
abbrev HTTPParam := String × String

/-- An HTTP request to the NSIDC ordering/subsetting API. -/
structure HTTPRequest where
  endpoint : String
  params : List HTTPParam
deriving DecidableEq

/-- The NSIDC ordering/subsetting API endpoint. -/
def nsidcOrderEndpoint : String :=
  "https://n5eil02u.ecs.nsidc.org/egi/request"

/-- The parameter list contributed by one optional keyword argument. -/
def optParam (k : String) : Option String → List HTTPParam
  | none => []
  | some v => [(k, v)]

/-- Modelled from the spec: `subsetparams` formats the query bounds and
the supplied keyword arguments (`Coverage`, `format`, `projection`,
`projection_parameters`) into the NSIDC subsetter parameters. -/
def subsetparams (q : QueryBounds) (kw : SubsetKwargs) : List HTTPParam :=
  [("bbox", q.bounding_box), ("time", q.start_date ++ "," ++ q.end_date)] ++
  optParam ("Coverage") kw.Coverage ++
  optParam ("format") kw.format ++
  optParam ("projection") kw.projection ++
  optParam ("projection_parameters") kw.projection_parameters

/-- Modelled from the spec: the default of the `subset` keyword of
`order_granules` and `download_granules`. -/
def subsetDefault : Bool := true

/-- Parameters sent when the caller passes subset=False: no subsetting
is requested from the NSIDC subsetter. -/
def noSubsetParams : List HTTPParam := [("agent", "NO")]

/-- Modelled from the spec: `order_granules` builds the NSIDC order
request; spatial and temporal subsetting from the query bounds, plus
the subsetting keyword arguments, are applied when `subset` is true
and omitted when the caller passes subset=False. -/
def order_granules (q : QueryBounds) (kw : SubsetKwargs) (subset : Bool) :
    HTTPRequest :=
  if subset then ⟨nsidcOrderEndpoint, subsetparams q kw⟩
  else ⟨nsidcOrderEndpoint, noSubsetParams⟩

/-- C6: the ordering/subsetting interface accepts the spatial/temporal
bounds and the `Coverage`, `format`, `projection` and
`projection_parameters` keyword arguments, and forwards each supplied
one as a parameter of the NSIDC ordering/subsetting HTTP request that
`order_granules` builds from `subsetparams`. -/
theorem subsetparams_forwards_kwargs (q : QueryBounds) (kw : SubsetKwargs) :
    (order_granules q kw subsetDefault).endpoint = nsidcOrderEndpoint ∧
    (order_granules q kw subsetDefault).params = subsetparams q kw ∧
    ("bbox", q.bounding_box) ∈ subsetparams q kw ∧
    ("time", q.start_date ++ "," ++ q.end_date) ∈ subsetparams q kw ∧
    (∀ c, kw.Coverage = some c → ("Coverage", c) ∈ subsetparams q kw) ∧
    (∀ f, kw.format = some f → ("format", f) ∈ subsetparams q kw) ∧
    (∀ p, kw.projection = some p → ("projection", p) ∈ subsetparams q kw) ∧
    (∀ p, kw.projection_parameters = some p →
      ("projection_parameters", p) ∈ subsetparams q kw) := by
  refine ⟨rfl, rfl, ?_, ?_, ?_, ?_, ?_, ?_⟩
  · simp [subsetparams]
  · simp [subsetparams]
  · intro c hc
    simp [subsetparams, optParam, hc]
  · intro f hf
    simp [subsetparams, optParam, hf]
  · intro p hp
    simp [subsetparams, optParam, hp]
  · intro p hp
    simp [subsetparams, optParam, hp]

/-- The ordering/download state of a query session: the order placed
with NSIDC, when any, plus the orders whose granule files have been
downloaded. -/
structure SessionState where
  placedOrder : Option HTTPRequest
  downloaded : List HTTPRequest
deriving DecidableEq

/-- Modelled from the spec: `order_granules` as a session step places
with NSIDC the order request built by `order_granules`. -/
def Session.order_granules (s : SessionState) (q : QueryBounds)
    (kw : SubsetKwargs) (subset : Bool) : SessionState :=
  ⟨some (Icepyx.order_granules q kw subset), s.downloaded⟩

/-- Modelled from the spec: `download_granules` calls `order_granules`
under the hood, with the same subsetting keyword arguments, when no
order has been placed yet, and then downloads the files of the placed
order; when an order already exists it downloads without re-ordering. -/
def Session.download_granules (s : SessionState) (q : QueryBounds)
    (kw : SubsetKwargs) (subset : Bool) : SessionState :=
  match s.placedOrder with
  | none =>
      let r := Icepyx.order_granules q kw subset
      ⟨some r, s.downloaded ++ [r]⟩
  | some r => ⟨some r, s.downloaded ++ [r]⟩

/-- C8: spatial and temporal subsetting based on the query bounds is
applied to an order by default, both when ordering directly and when
`download_granules` places the order, and it is omitted exactly when
the caller passes subset=False. -/
theorem order_subsets_by_default (q : QueryBounds) (kw : SubsetKwargs) :
    subsetDefault = true ∧
    ("bbox", q.bounding_box) ∈ (order_granules q kw subsetDefault).params ∧
    ("time", q.start_date ++ "," ++ q.end_date) ∈
      (order_granules q kw subsetDefault).params ∧
    (∀ s : SessionState, s.placedOrder = none →
      (Session.download_granules s q kw subsetDefault).placedOrder =
        some (order_granules q kw subsetDefault)) ∧
    (∀ v, ("bbox", v) ∉ (order_granules q kw false).params) ∧
    (∀ v, ("time", v) ∉ (order_granules q kw false).params) := by
  refine ⟨rfl, ?_, ?_, ?_, ?_, ?_⟩
  · simp [order_granules, subsetDefault, subsetparams]
  · simp [order_granules, subsetDefault, subsetparams]
  · intro s hs
    simp [Session.download_granules, hs]
  · intro v
    simp [order_granules, noSubsetParams]
  · intro v
    simp [order_granules, noSubsetParams]

/-- C9: on a session with no placed order, `download_granules` alone is
the same as `order_granules` (with the same subsetting arguments)
followed by `download_granules`; on a session with a placed order it
downloads that order without re-ordering. -/
theorem download_granules_orders_once (s : SessionState) (q : QueryBounds)
    (kw : SubsetKwargs) (subset : Bool) :
    (s.placedOrder = none →
      Session.download_granules s q kw subset =
        Session.download_granules (Session.order_granules s q kw subset)
          q kw subset) ∧
    (∀ o, s.placedOrder = some o →
      (Session.download_granules s q kw subset).placedOrder = some o ∧
      (Session.download_granules s q kw subset).downloaded =
        s.downloaded ++ [o]) := by
  constructor
  · intro h
    simp [Session.download_granules, Session.order_granules, h]
  · intro o h
    simp [Session.download_granules, h]

/-- Demo query bounds for the ordering witnesses. -/
def demoBounds : QueryBounds := ⟨"-55,68,-48,71", "2019-02-22", "2019-02-28"⟩

/-- Demo subsetting keyword arguments with every keyword supplied. -/
def demoKwargs : SubsetKwargs :=
  ⟨some "/gt1l/land_ice_segments/h_li", some "NetCDF4-CF",
   some "GEOGRAPHIC", some "false_easting=0"⟩

/-- Concrete instantiation of the kwargs forwarding theorem: the
supplied `Coverage` value is forwarded as an order parameter. -/
theorem subsetparams_forwards_kwargs_witness :
    ("Coverage", "/gt1l/land_ice_segments/h_li") ∈
      subsetparams demoBounds demoKwargs :=
  (subsetparams_forwards_kwargs demoBounds demoKwargs).2.2.2.2.1
    ("/gt1l/land_ice_segments/h_li") rfl

/-- Concrete instantiation of the default subsetting theorem: the
spatial bound is part of a default order and of no subset=False
order. -/
theorem order_subsets_by_default_witness :
    ("bbox", "-55,68,-48,71") ∈
      (order_granules demoBounds demoKwargs subsetDefault).params ∧
    ("bbox", "-55,68,-48,71") ∉
      (order_granules demoBounds demoKwargs false).params :=
  ⟨(order_subsets_by_default demoBounds demoKwargs).2.1,
   (order_subsets_by_default demoBounds demoKwargs).2.2.2.2.1
     ("-55,68,-48,71")⟩

/-- Concrete instantiation of the ordering equivalence theorem: on a
fresh session, downloading alone equals ordering then downloading. -/
theorem download_granules_orders_once_witness :
    Session.download_granules ⟨none, []⟩ demoBounds demoKwargs true =
      Session.download_granules
        (Session.order_granules ⟨none, []⟩ demoBounds demoKwargs true)
        demoBounds demoKwargs true :=
  (download_granules_orders_once ⟨none, []⟩ demoBounds demoKwargs true).1 rfl

/-- The characters of the final `/`-separated component of a variable
path: `acc` accumulates the characters of the current component. -/
def lastComponent (acc : List Char) : List Char → List Char
  | [] => acc
  | c :: rest =>
      if c = '/' then lastComponent [] rest
      else lastComponent (acc ++ [c]) rest

/-- The variable name of a path+variable string: its final
`/`-separated component. -/
def varName (s : String) : String :=
  String.mk (lastComponent [] s.data)

/-- Insert a full variable path `s` into the dictionary under the key
`k`, appending to the existing group for `k` or starting a new group
at the end. -/
def addToGroup (d : List (String × List String)) (k s : String) :
    List (String × List String) :=
  match d with
  | [] => [(k, [s])]
  | (k0, vs) :: rest =>
      if k0 = k then (k0, vs ++ [s]) :: rest
      else (k0, vs) :: addToGroup rest k s

/-- Tail of `parse_var_list`: fold the input paths into the dictionary. -/
def parseVarsAux (d : List (String × List String)) :
    List String → List (String × List String)
  | [] => d
  | s :: rest => parseVarsAux (addToGroup d (varName s) s) rest

/-- Modelled from the spec: `Variables.parse_var_list` (implementation
not in the reviewed material) turns a list of path+variable strings
into a dictionary whose keys are variable names, the final path
component, and whose values are the paths to that variable. -/
def parse_var_list (l : List String) : List (String × List String) :=
  parseVarsAux [] l

/-- Lookup of a variable name in the dictionary built by
`parse_var_list`. -/
def lookupGroup (d : List (String × List String)) (k : String) :
    Option (List String) :=
  match d with
  | [] => none
  | (k0, vs) :: rest => if k0 = k then some vs else lookupGroup rest k

theorem lookupGroup_addToGroup (d : List (String × List String))
    (k s x : String) :
    lookupGroup (addToGroup d k s) x =
      if x = k then some (((lookupGroup d k).getD []) ++ [s])
      else lookupGroup d x := by
  induction d with
  | nil =>
      by_cases h : x = k
      · subst h
        simp [addToGroup, lookupGroup]
      · simp [addToGroup, lookupGroup, h, Ne.symm h]
  | cons p rest ih =>
      obtain ⟨k0, vs⟩ := p
      by_cases hk : k0 = k
      · subst hk
        by_cases hx : x = k0
        · subst hx
          simp [addToGroup, lookupGroup]
        · simp [addToGroup, lookupGroup, hx, Ne.symm hx]
      · by_cases hx : k0 = x
        · subst hx
          simp [addToGroup, lookupGroup, hk]
        · simp [addToGroup, lookupGroup, hk, hx, ih]

theorem lookupGroup_parseVarsAux (l : List String) :
    ∀ (d : List (String × List String)) (v : String),
      lookupGroup (parseVarsAux d l) v =
        match lookupGroup d v with
        | some vs => some (vs ++ l.filter (fun s => varName s == v))
        | none =>
            if l.filter (fun s => varName s == v) = [] then none
            else some (l.filter (fun s => varName s == v)) := by
  induction l with
  | nil =>
      intro d v
      cases h : lookupGroup d v <;> simp [parseVarsAux, h]
  | cons s l ih =>
      intro d v
      by_cases hv : varName s = v
      · subst hv
        rw [parseVarsAux, ih, lookupGroup_addToGroup]
        cases h : lookupGroup d (varName s) <;>
          simp [h, List.filter_cons, List.append_assoc]
      · have hv2 : ¬ (v = varName s) := fun hh => hv hh.symm
        have hbeq : (varName s == v) = false := by
          simpa using hv
        rw [parseVarsAux, ih, lookupGroup_addToGroup]
        simp [hv2, hbeq, List.filter_cons]

/-- C7 (amended claim): `parse_var_list` is an internal algorithm whose
output is a deterministic, specifiable function of its local input
alone: for every input list and variable name, looking the name up in
the produced dictionary returns exactly the input paths whose final
component is that name, and no entry when no input path has it. -/
theorem parse_var_list_deterministic (l : List String) (v : String) :
    lookupGroup (parse_var_list l) v =
      if l.filter (fun s => varName s == v) = [] then none
      else some (l.filter (fun s => varName s == v)) := by
  have h := lookupGroup_parseVarsAux l [] v
  simpa [parse_var_list, lookupGroup] using h

/-- C7 (counterexample to the claim as stated): `parse_var_list` is an
internal operation whose output is fixed as a function of its local
input alone: applied to this fixed list of path+variable strings it
yields, with no live external service response involved, exactly this
variable-name-to-paths dictionary. -/
theorem parse_var_list_fixed_io_pair :
    parse_var_list
        ["gt1l/land_ice_segments/h_li",
         "gt1l/land_ice_segments/latitude",
         "gt3r/land_ice_segments/h_li"] =
      [("h_li",
        ["gt1l/land_ice_segments/h_li", "gt3r/land_ice_segments/h_li"]),
       ("latitude", ["gt1l/land_ice_segments/latitude"])] := by
  rfl

/-- Concrete instantiation of the determinism theorem on a two-path
input list. -/
theorem parse_var_list_deterministic_witness :
    lookupGroup (parse_var_list ["gt1l/h_li", "gt3r/h_li"]) ("h_li") =
      if ["gt1l/h_li", "gt3r/h_li"].filter
          (fun s => varName s == "h_li") = [] then none
      else some (["gt1l/h_li", "gt3r/h_li"].filter
          (fun s => varName s == "h_li")) :=
  parse_var_list_deterministic (["gt1l/h_li", "gt3r/h_li"]) ("h_li")

end Icepyx
